import Mathlib

/-!
Verification of the heuristic scoring/matching engine of MyCareerAssist.

Shallow embedding of `src/MyCareerAssist.py` (the `calculate_ats_score`
function) and `src/ai_helpers.py` (`ResumOptimizer.get_missing_keywords`,
`ResumOptimizer.get_weak_verbs`, `CoverLetterGenerator.generate_cover_letter`,
`JobMatcher.calculate_job_match_score`).

Modelling conventions:
* Python strings are `List Char`; Python floats are exact rationals `ℚ`
  (the source only multiplies/divides by small decimal constants).
* Python regex character classes are modelled at ASCII precision
  (`\w` as alphanumeric-or-underscore, `\s` as the six ASCII whitespace
  characters, `str.lower` as `Char.toLower`); every input occurring in the
  claims is ASCII apart from fixed German letters that never sit next to a
  word boundary that matters.
* Recursions that follow a regex scanner are written with an explicit fuel
  argument (structural recursion, kernel-reducible); the top-level entry
  points pass `length + 1` fuel, which is always sufficient since every
  step consumes at least one character.
-/

namespace CareerAssist

/-- Convert a Lean string literal to the `List Char` representation used
throughout the embedding. -/
def chars (s : String) : List Char := s.toList

/-- Python `str.lower()` (ASCII). -/
def lower (s : List Char) : List Char := s.map Char.toLower

/-- Python regex `\w` (ASCII approximation): letters, digits, underscore. -/
def isWordChar (c : Char) : Bool := c.isAlphanum || c == '_'

/-- Python regex `\s` (ASCII): space, tab, newline, carriage return,
vertical tab, form feed. -/
def isSpace (c : Char) : Bool :=
  c == ' ' || c == '\t' || c == '\n' || c == '\r' ||
  c == Char.ofNat 11 || c == Char.ofNat 12

/-- Python substring test `needle in hay` (case-sensitive). -/
def containsSub (hay needle : List Char) : Bool :=
  (List.range (hay.length + 1)).any fun i => needle.isPrefixOf (hay.drop i)

/-- Case-insensitive substring test: `needle.lower() in hay.lower()`. -/
def containsCI (hay needle : List Char) : Bool :=
  containsSub (lower hay) (lower needle)

/-- The literal `w` matches case-insensitively at position `i` of `s`, with a
regex word boundary `\b` on both sides (the character before position `i`,
if any, and the character after the occurrence, if any, are non-word). -/
def wordAt (s w : List Char) (i : Nat) : Bool :=
  decide (lower ((s.drop i).take w.length) = lower w) && !w.isEmpty &&
  (if i = 0 then true else !isWordChar (s.getD (i - 1) ' ')) &&
  !isWordChar (s.getD (i + w.length) ' ')

/-- Python `re.search(r'\b' + w + r'\b', s, re.IGNORECASE)` succeeds:
some position of `s` carries a word-boundary case-insensitive match of the
literal `w`. -/
def wordCI (s w : List Char) : Bool :=
  (List.range (s.length + 1)).any fun i => wordAt s w i

/-- Python `re.search(r'\b(w1|w2|...)\b', s, re.IGNORECASE)` succeeds for an
alternation of literals `ws`. -/
def hasWordCI (s : List Char) (ws : List (List Char)) : Bool :=
  ws.any fun w => wordCI s w

/-! ## ATS scorer — `calculate_ats_score` (MyCareerAssist.py lines 154-209) -/

/-- Alternatives of the contact-header regex
`\b(Telefon|Email|Kontakt|Contact)\b` (line 176). -/
def contact_words : List (List Char) :=
  [chars "Telefon", chars "Email", chars "Kontakt", chars "Contact"]

/-- Alternatives of the experience-keyword regex
`\b(Erfahrung|Experience|Berufserfahrung|Jahne|Jahre)\b` (line 181,
the "Jahne" misspelling is present in the source). -/
def experience_words : List (List Char) :=
  [chars "Erfahrung", chars "Experience", chars "Berufserfahrung",
   chars "Jahne", chars "Jahre"]

/-- Alternatives of the education-keyword regex (line 187). -/
def education_words : List (List Char) :=
  [chars "Bachelor", chars "Master", chars "Diplom", chars "Abschluss",
   chars "Universität", chars "Hochschule", chars "Schule"]

/-- Python `len(resume_text.split('\n'))`: one more than the number of
newline characters (line 193). -/
def line_count (s : List Char) : Nat := s.count '\n' + 1

/-- Formatting sub-score: a −10 penalty when no contact header is found,
then `max(0, 100 + penalty)` (lines 176-178 and 197). -/
def formatting_score (r : List Char) : Int :=
  max 0 (100 + (if hasWordCI r contact_words then 0 else -10))

/-- Keyword sub-score: −5 penalties for missing experience and education
keywords, then `max(0, 100 + penalties)` (lines 181-190 and 198). -/
def keyword_score (r : List Char) : Int :=
  max 0 (100 + ((if hasWordCI r experience_words then 0 else -5) +
                (if hasWordCI r education_words then 0 else -5)))

/-- Readability sub-score: `min(100, line_count * 2)` when `line_count > 20`,
otherwise 0; then `max(0, ·)` (lines 193-195 and 199). -/
def readability_score (r : List Char) : Int :=
  max 0 (if 20 < line_count r then min 100 ((line_count r : Int) * 2) else 0)

/-- Overall score: `(f*0.3 + k*0.4 + r*0.3) / 100 * 100` (lines 201-205),
with the Python float arithmetic modelled exactly over `ℚ`. -/
def overall_score (r : List Char) : ℚ :=
  ((formatting_score r : ℚ) * (3/10) + (keyword_score r : ℚ) * (4/10) +
   (readability_score r : ℚ) * (3/10)) / 100 * 100

/-- Warning issued when the contact check fails (line 177). -/
def contact_msg : String := "❌ Kontaktinformationen möglicherweise nicht klar formatiert"

/-- Warning issued when the experience check fails (line 183). -/
def experience_msg : String := "⚠️ Keine klare Berufserfahrung erkannt"

/-- Warning issued when the education check fails (line 189). -/
def education_msg : String := "⚠️ Keine Ausbildung/Studium erkannt"

/-- Message used when no warning triggered (line 207). -/
def good_msg : String := "✅ Lebenslauf sieht gut aus!"

/-- The `score_metrics` dictionary returned by `calculate_ats_score`. -/
structure ScoreMetrics where
  overall_score : ℚ
  formatting_score : Int
  keyword_score : Int
  readability_score : Int
  recommendations : List String
  deriving Repr, DecidableEq

/-- Model of `calculate_ats_score(resume_text)` (MyCareerAssist.py
lines 154-209): the issue list accumulates the three warnings in source
order; the recommendations are the issues, or the positive message when no
issue triggered. -/
def calculate_ats_score (r : List Char) : ScoreMetrics :=
  let issues : List String :=
    (if hasWordCI r contact_words then [] else [contact_msg]) ++
    (if hasWordCI r experience_words then [] else [experience_msg]) ++
    (if hasWordCI r education_words then [] else [education_msg])
  { overall_score := overall_score r
    formatting_score := formatting_score r
    keyword_score := keyword_score r
    readability_score := readability_score r
    recommendations := if issues.isEmpty then [good_msg] else issues }

/-! ## Keyword gap finder — `ResumOptimizer.get_missing_keywords`
(ai_helpers.py lines 37-58) -/

/-- Regex `[A-Z]` (ASCII, the findall pattern has no IGNORECASE flag). -/
def isUpperAZ (c : Char) : Bool := 'A' ≤ c && c ≤ 'Z'

/-- Regex `[a-z]` (ASCII). -/
def isLowerAZ (c : Char) : Bool := 'a' ≤ c && c ≤ 'z'

/-- Parse one `[A-Z][a-z]+` word at the head of the input: an uppercase
letter followed by the maximal non-empty run of lowercase letters.  Returns
the word and the remaining input. -/
def parseWord : List Char → Option (List Char × List Char)
  | [] => none
  | c :: cs =>
    if isUpperAZ c then
      let run := cs.takeWhile isLowerAZ
      if run.isEmpty then none else some (c :: run, cs.dropWhile isLowerAZ)
    else none

/-- Greedy `(?:\s[A-Z][a-z]+)*` continuation followed by the closing `\b`
of the pattern `\b[A-Z][a-z]+(?:\s[A-Z][a-z]+)*\b` (ai_helpers.py line 52),
to be run just after a complete `[A-Z][a-z]+` word.  Returns the matched
extension and the rest, or `none` when the trailing word boundary fails
with zero iterations (the caller must then drop its own word: shrinking a
maximal `[a-z]+` run can never create a boundary, so regex backtracking
only ever drops whole `\s[A-Z][a-z]+` iterations, and after a drop the
boundary sits before the separator whitespace and always holds). -/
def extendRun : Nat → List Char → Option (List Char × List Char)
  | 0, _ => none
  | _ + 1, [] => some ([], [])
  | fuel + 1, c :: rest =>
    if isSpace c then
      match parseWord rest with
      | some (w, rest') =>
        match extendRun fuel rest' with
        | some (ext, r) => some (c :: (w ++ ext), r)
        | none => some ([], c :: rest)
      | none => some ([], c :: rest)
    else if isWordChar c then none
    else some ([], c :: rest)

/-- Attempt the pattern `[A-Z][a-z]+(?:\s[A-Z][a-z]+)*\b` at the head of
`s` (the leading `\b` is checked by the scanner).  Returns the matched text
and the rest of the input. -/
def matchAt (fuel : Nat) (s : List Char) : Option (List Char × List Char) :=
  match parseWord s with
  | none => none
  | some (w0, rest) =>
    match extendRun fuel rest with
    | some (ext, r) => some (w0 ++ ext, r)
    | none => none

/-- Left-to-right non-overlapping scan of `re.findall`: at each position
whose preceding character is not a word character (the leading `\b`; a
match necessarily starts with an uppercase letter, a word character), try
the pattern and emit the match. -/
def scanMatches : Nat → Bool → List Char → List (List Char)
  | 0, _, _ => []
  | _ + 1, _, [] => []
  | fuel + 1, prevW, c :: rest =>
    if prevW then scanMatches fuel (isWordChar c) rest
    else
      match matchAt (fuel + 1) (c :: rest) with
      | some (m, r) => m :: scanMatches fuel true r
      | none => scanMatches fuel (isWordChar c) rest

/-- Model of `re.findall(r'\b[A-Z][a-z]+(?:\s[A-Z][a-z]+)*\b',
job_description)` (ai_helpers.py line 52). -/
def findall (s : List Char) : List (List Char) := scanMatches (s.length + 1) false s

/-- Deduplication keeping first occurrences, with an accumulator of
already-seen elements.  Models the Python `set(keywords)`; the iteration
order of a Python set is unspecified, so the embedding fixes
first-occurrence order — no claim proved below depends on that order. -/
def dedupAcc (seen : List (List Char)) : List (List Char) → List (List Char)
  | [] => []
  | x :: xs => if x ∈ seen then dedupAcc seen xs else x :: dedupAcc (x :: seen) xs

/-- Model of `ResumOptimizer.get_missing_keywords(resume_text,
job_description)` (ai_helpers.py lines 37-58): extract capitalized phrases
from the job description, deduplicate, keep those whose lowercase form is
not a substring of the lowercase resume, return the first 10. -/
def get_missing_keywords (resume_text job_description : List Char) : List (List Char) :=
  ((dedupAcc [] (findall job_description)).filter
    fun k => !containsSub (lower resume_text) (lower k)).take 10

/-! ## Weak verbs — `ResumOptimizer.get_weak_verbs`
(ai_helpers.py lines 60-87) -/

/-- The fixed weak-verb mapping in its declaration order (dict literal,
ai_helpers.py lines 71-80; Python dicts iterate in insertion order). -/
def weak_verb_map : List (List Char × List Char) :=
  [(chars "worked", chars "Implemented"),
   (chars "did", chars "Accomplished"),
   (chars "made", chars "Created"),
   (chars "was responsible for", chars "Managed"),
   (chars "helped", chars "Supported"),
   (chars "responsible", chars "Directed"),
   (chars "participated", chars "Contributed"),
   (chars "involved", chars "Executed")]

/-- Model of `ResumOptimizer.get_weak_verbs(resume_text)`: keep the pairs
whose weak phrase occurs with `re.search(r'\b' + weak + r'\b', resume_text,
re.IGNORECASE)` (ai_helpers.py line 84). -/
def get_weak_verbs (resume_text : List Char) : List (List Char × List Char) :=
  weak_verb_map.filter fun p => wordCI resume_text p.1

/-! ## Cover letter — `CoverLetterGenerator.generate_cover_letter`
(ai_helpers.py lines 147-220) -/

/-- The placeholder names appearing in the templates. -/
inductive Placeholder
  | name | position | years | field | skills | achievements
  | accomplishments | passion
  deriving Repr, DecidableEq

/-- A template is a sequence of literal fragments and placeholders; this
models a Python string with format placeholders, split at each
placeholder. -/
inductive Frag
  | lit (s : String)
  | ph (p : Placeholder)
  deriving Repr, DecidableEq

/-- The `formal_de` template string (ai_helpers.py lines 151-165). -/
def formal_de_template : List Frag :=
  [.lit "Sehr geehrte Damen und Herren,\n\nich bin eine hochmotivierte Fachkraft mit ",
   .ph .years,
   .lit " Jahren Erfahrung in ",
   .ph .field,
   .lit ".\nMeine Fähigkeiten im Bereich ",
   .ph .skills,
   .lit " sowie meine ",
   .ph .achievements,
   .lit " qualifizieren mich\nideal für die Position als ",
   .ph .position,
   .lit " bei Ihrer Organisation.\n\nIn meiner bisherigen Karriere habe ich ",
   .ph .accomplishments,
   .lit ".\nIch bin überzeugt, dass meine Kompetenzen und meine Leidenschaft für ",
   .ph .passion,
   .lit "\neinen wertvollen Beitrag zu Ihrem Team leisten werden.\n\nGerne stelle ich Ihnen in einem persönlichen Gespräch meine Qualifikationen \nnäher dar. Vielen Dank für Ihre Aufmerksamkeit.\n\nMit freundlichen Grüßen,\n",
   .ph .name]

/-- The `formal_en` template string (ai_helpers.py lines 167-181). -/
def formal_en_template : List Frag :=
  [.lit "Dear Hiring Manager,\n\nI am a highly motivated professional with ",
   .ph .years,
   .lit " years of experience in ",
   .ph .field,
   .lit ".\nMy expertise in ",
   .ph .skills,
   .lit " and proven track record of ",
   .ph .achievements,
   .lit " make me\nan excellent fit for the ",
   .ph .position,
   .lit " role at your organization.\n\nThroughout my career, I have ",
   .ph .accomplishments,
   .lit ".\nI am confident that my skills and passion for ",
   .ph .passion,
   .lit " will make a\nsignificant contribution to your team.\n\nI would welcome the opportunity to discuss how I can add value to your organization.\nThank you for considering my application.\n\nBest regards,\n",
   .ph .name]

/-- The `TEMPLATES` class dictionary (ai_helpers.py lines 150-182). -/
def TEMPLATES : List (String × List Frag) :=
  [("formal_de", formal_de_template), ("formal_en", formal_en_template)]

/-- The `experience` dictionary: only the six keys read by
`experience.get(...)` matter, each possibly absent. -/
structure Experience where
  years : Option String
  field : Option String
  skills : Option String
  achievements : Option String
  accomplishments : Option String
  passion : Option String
  deriving Repr, DecidableEq

/-- Placeholder substitution with the per-field defaults of the
`.format(...)` call (ai_helpers.py lines 209-218). -/
def fillPlaceholder (name position : String) (e : Experience) : Placeholder → String
  | .name => name
  | .position => position
  | .years => e.years.getD "5"
  | .field => e.field.getD "your industry"
  | .skills => e.skills.getD "relevant skills"
  | .achievements => e.achievements.getD "consistent achievements"
  | .accomplishments => e.accomplishments.getD "demonstrated excellence"
  | .passion => e.passion.getD "professional growth"

/-- Render a template: every placeholder substituted, fragments
concatenated. -/
def renderTemplate (t : List Frag) (name position : String) (e : Experience) : String :=
  (t.map fun f =>
    match f with
    | .lit s => s
    | .ph p => fillPlaceholder name position e p).foldl (· ++ ·) ""

/-- Model of `CoverLetterGenerator.generate_cover_letter(template, name,
position, experience)` (ai_helpers.py lines 184-220): an unknown template
key silently falls back to `formal_de`, then the selected template is
rendered.  The `getD` default can never fire: the selected key is always
present. -/
def generate_cover_letter (template name position : String) (e : Experience) : String :=
  let key := if (TEMPLATES.lookup template).isSome then template else "formal_de"
  renderTemplate ((TEMPLATES.lookup key).getD formal_de_template) name position e

/-! ## Job matcher — `JobMatcher.calculate_job_match_score`
(ai_helpers.py lines 269-317) -/

/-- The candidate profile dictionary as read by the matcher.  Per the data
model, `experience_years` is a non-negative integer (the extractor at
ai_helpers.py lines 249-253 produces a maximum of regex-captured digit
runs, or 0). -/
structure CandidateProfile where
  skills : List (List Char)
  experience_years : Nat
  education_level : List Char
  deriving Repr, DecidableEq

/-- Alternatives of the job-skill regex
`\b(Python|Java|SQL|AWS|Azure|Docker)\b` (ai_helpers.py line 289). -/
def skill_pattern_words : List (List Char) :=
  [chars "Python", chars "Java", chars "SQL", chars "AWS", chars "Azure",
   chars "Docker"]

/-- Model of `re.findall(r'\b(Python|Java|SQL|AWS|Azure|Docker)\b',
job_description, re.IGNORECASE)`: every word-boundary case-insensitive
occurrence of one of the six literals, captured as the text actually found
in the job description (the group keeps the source capitalization).  The
six literals are pairwise non-prefix, so at most one matches per position,
and word boundaries make distinct matches disjoint, hence position order
coincides with the non-overlapping findall scan. -/
def job_skill_matches (job : List Char) : List (List Char) :=
  (List.range (job.length + 1)).filterMap fun i =>
    match skill_pattern_words.find? (fun w => wordAt job w i) with
    | some w => some ((job.drop i).take w.length)
    | none => none

/-- Skill component (ai_helpers.py lines 287-296): candidate skills are
lowercased into a set, job skills are the set of matches as found; if the
job lists recognized skills, award `|candidate ∩ job| / |job| * 40`,
otherwise the full 40. -/
def skill_component (p : CandidateProfile) (job : List Char) : ℚ :=
  let candidate_skills := dedupAcc [] (p.skills.map lower)
  let job_skills := dedupAcc [] (job_skill_matches job)
  if job_skills.isEmpty then 40
  else ((job_skills.filter fun k => k ∈ candidate_skills).length : ℚ) /
       (job_skills.length : ℚ) * 40

/-- Value of a decimal digit run, `int(...)` of a `\d+` capture. -/
def digitsToNat (ds : List Char) : Nat :=
  ds.foldl (fun n c => 10 * n + (c.toNat - 48)) 0

/-- The pattern `(\d+)\s+(?:years?|Jahre)` matches at the head of `s`:
a non-empty digit run, at least one whitespace character, then the literal
`year` (covering `years?`) or `Jahre`.  The digit and whitespace runs are
greedy; backtracking cannot help since a shortened run leaves a digit
where `\s` is required resp. a whitespace where `y`/`J` is required. -/
def yearReqAt (s : List Char) : Bool :=
  match s with
  | [] => false
  | c :: _ =>
    c.isDigit &&
    (let r1 := s.dropWhile Char.isDigit
     let r2 := r1.dropWhile isSpace
     !(r1.takeWhile isSpace).isEmpty &&
     ((chars "year").isPrefixOf r2 || (chars "Jahre").isPrefixOf r2))

/-- Model of `re.search(r'(\d+)\s+(?:years?|Jahre)', job_description)`
(ai_helpers.py line 299, case-sensitive): the leftmost position where the
pattern matches, returning `int` of the captured digit run. -/
def searchYears : List Char → Option Nat
  | [] => none
  | c :: rest =>
    if yearReqAt (c :: rest) then
      some (digitsToNat ((c :: rest).takeWhile Char.isDigit))
    else searchYears rest

/-- Experience component (ai_helpers.py lines 298-307): with a numeric
requirement `req`, award 30 when the candidate meets it, otherwise
proportional credit floored at 0; with no requirement, the full 30. -/
def experience_component (p : CandidateProfile) (job : List Char) : ℚ :=
  match searchYears job with
  | some req =>
    if req ≤ p.experience_years then 30
    else max 0 ((p.experience_years : ℚ) / (req : ℚ) * 30)
  | none => 30

/-- Education component (ai_helpers.py lines 309-315): case-sensitive
substring tests on the job description against the profile's education
level. -/
def education_component (p : CandidateProfile) (job : List Char) : ℚ :=
  if containsSub job (chars "Master") = true ∧ p.education_level = chars "Master"
  then 20
  else if containsSub job (chars "Bachelor") = true ∧
          (p.education_level = chars "Master" ∨ p.education_level = chars "Bachelor")
  then 15
  else if p.education_level ≠ chars "Unknown" then 10
  else 0

/-- Model of `JobMatcher.calculate_job_match_score(candidate_profile,
job_description)` (ai_helpers.py lines 269-317): the three components are
accumulated into `score` and the result is `min(100, score)`. -/
def calculate_job_match_score (p : CandidateProfile) (job : List Char) : ℚ :=
  min 100 (skill_component p job + experience_component p job +
           education_component p job)

/-! ## Concrete inputs used by the claims -/

/-- A 25-line resume whose `Contact` occurrence is only a substring
(inside `Contacting`), not a standalone word. -/
def c2_resume : List Char :=
  chars "Contacting Experience Bachelor" ++ List.replicate 24 '\n'

/-- A 25-line resume with standalone `Contact`, `Experience`,
`Bachelor`. -/
def c2_witness_resume : List Char :=
  chars "Contact Experience Bachelor" ++ List.replicate 24 '\n'

/-- The job description of claim C6. -/
def c6_job : List Char := chars "Requires Python and SQL"

/-- The resume text of claim C8's example. -/
def c8_resume : List Char := chars "I worked on the project"

/-- An experience dictionary with no keys. -/
def empty_experience : Experience := ⟨none, none, none, none, none, none⟩

/-- A job description with a numeric year requirement, for the C5
witness. -/
def c5_job : List Char := chars "Requires 5 years experience"

/-- The candidate profile of claim C10. -/
def c10_profile : CandidateProfile := ⟨[chars "Python"], 0, chars "Unknown"⟩

/-- The job description of claim C10. -/
def c10_job : List Char := chars "Requires Python"

/-! ## Helper lemmas -/

/-- Projection of the score record: formatting. -/
theorem ats_formatting_eq (r : List Char) :
    (calculate_ats_score r).formatting_score = formatting_score r := rfl

/-- Projection of the score record: keyword. -/
theorem ats_keyword_eq (r : List Char) :
    (calculate_ats_score r).keyword_score = keyword_score r := rfl

/-- Projection of the score record: readability. -/
theorem ats_readability_eq (r : List Char) :
    (calculate_ats_score r).readability_score = readability_score r := rfl

/-- Projection of the score record: overall. -/
theorem ats_overall_eq (r : List Char) :
    (calculate_ats_score r).overall_score = overall_score r := rfl

/-- The formatting sub-score lies in [0, 100]. -/
theorem formatting_score_bounds (r : List Char) :
    0 ≤ formatting_score r ∧ formatting_score r ≤ 100 := by
  unfold formatting_score
  split_ifs <;> exact ⟨by norm_num, by norm_num⟩

/-- The keyword sub-score lies in [0, 100]. -/
theorem keyword_score_bounds (r : List Char) :
    0 ≤ keyword_score r ∧ keyword_score r ≤ 100 := by
  unfold keyword_score
  split_ifs <;> exact ⟨by norm_num, by norm_num⟩

/-- The readability sub-score lies in [0, 100]. -/
theorem readability_score_bounds (r : List Char) :
    0 ≤ readability_score r ∧ readability_score r ≤ 100 := by
  unfold readability_score
  refine ⟨le_max_left 0 _, ?_⟩
  split
  · exact max_le (by norm_num) (min_le_left _ _)
  · norm_num

/-- The `/ 100 * 100` of the source cancels exactly over `ℚ`: the overall
score is the plain weighted combination. -/
theorem overall_score_eq (r : List Char) :
    overall_score r =
      (formatting_score r : ℚ) * (3/10) + (keyword_score r : ℚ) * (4/10) +
      (readability_score r : ℚ) * (3/10) := by
  unfold overall_score
  ring

/-- Every element produced by `dedupAcc` comes from the input list. -/
theorem dedupAcc_subset (l : List (List Char)) :
    ∀ seen, ∀ x ∈ dedupAcc seen l, x ∈ l := by
  induction l with
  | nil => intro seen x hx; simp [dedupAcc] at hx
  | cons a as ih =>
    intro seen x hx
    unfold dedupAcc at hx
    split at hx
    · exact List.mem_cons_of_mem a (ih seen x hx)
    · rcases List.mem_cons.mp hx with h | hx'
      · rw [h]; exact List.mem_cons_self a as
      · exact List.mem_cons_of_mem a (ih (a :: seen) x hx')

/-- `dedupAcc` yields a duplicate-free list avoiding the seen set. -/
theorem dedupAcc_nodup (l : List (List Char)) :
    ∀ seen, (dedupAcc seen l).Nodup ∧ ∀ x ∈ dedupAcc seen l, x ∉ seen := by
  induction l with
  | nil => intro seen; simp [dedupAcc]
  | cons a as ih =>
    intro seen
    unfold dedupAcc
    split
    · exact ih seen
    · refine ⟨List.nodup_cons.mpr ⟨fun ha => ?_, (ih (a :: seen)).1⟩, ?_⟩
      · exact (ih (a :: seen)).2 a ha (List.mem_cons_self a seen)
      · intro x hx
        rcases List.mem_cons.mp hx with rfl | hx'
        · assumption
        · exact fun hxs => (ih (a :: seen)).2 x hx' (List.mem_cons_of_mem a hxs)

/-! ## Claims about the ATS scorer -/

/-- Claim C1: for every resume text, each of the four values returned by
`calculate_ats_score` lies in [0,100], and the overall score equals
`formatting*0.3 + keyword*0.4 + readability*0.3`. -/
theorem ats_scores_in_range_and_weighted (r : List Char) :
    (0 ≤ (calculate_ats_score r).formatting_score ∧
      (calculate_ats_score r).formatting_score ≤ 100) ∧
    (0 ≤ (calculate_ats_score r).keyword_score ∧
      (calculate_ats_score r).keyword_score ≤ 100) ∧
    (0 ≤ (calculate_ats_score r).readability_score ∧
      (calculate_ats_score r).readability_score ≤ 100) ∧
    (0 ≤ (calculate_ats_score r).overall_score ∧
      (calculate_ats_score r).overall_score ≤ 100) ∧
    (calculate_ats_score r).overall_score =
      ((calculate_ats_score r).formatting_score : ℚ) * (3/10) +
      ((calculate_ats_score r).keyword_score : ℚ) * (4/10) +
      ((calculate_ats_score r).readability_score : ℚ) * (3/10) := by
  rw [ats_formatting_eq, ats_keyword_eq, ats_readability_eq, ats_overall_eq]
  have hf := formatting_score_bounds r
  have hk := keyword_score_bounds r
  have hr := readability_score_bounds r
  have hf0 : (0:ℚ) ≤ (formatting_score r : ℚ) := by exact_mod_cast hf.1
  have hf1 : (formatting_score r : ℚ) ≤ 100 := by exact_mod_cast hf.2
  have hk0 : (0:ℚ) ≤ (keyword_score r : ℚ) := by exact_mod_cast hk.1
  have hk1 : (keyword_score r : ℚ) ≤ 100 := by exact_mod_cast hk.2
  have hr0 : (0:ℚ) ≤ (readability_score r : ℚ) := by exact_mod_cast hr.1
  have hr1 : (readability_score r : ℚ) ≤ 100 := by exact_mod_cast hr.2
  refine ⟨hf, hk, hr, ⟨?_, ?_⟩, overall_score_eq r⟩
  · rw [overall_score_eq]; linarith
  · rw [overall_score_eq]; linarith

/-- Claim C2 counterexample: `c2_resume` has 25 newline-separated lines,
contains `Contact` as a case-insensitive substring (inside `Contacting`),
and the standalone words `Experience` and `Bachelor`, yet its formatting
score is 90 (the contact regex needs a word boundary) and its overall
score is 82, not 85. -/
theorem ats_contact_substring_counterexample :
    line_count c2_resume = 25 ∧
    containsCI c2_resume (chars "Contact") = true ∧
    wordCI c2_resume (chars "Experience") = true ∧
    wordCI c2_resume (chars "Bachelor") = true ∧
    (calculate_ats_score c2_resume).formatting_score = 90 ∧
    (calculate_ats_score c2_resume).formatting_score ≠ 100 ∧
    (calculate_ats_score c2_resume).overall_score = 82 := by
  have hf : formatting_score c2_resume = 90 := by decide
  have hk : keyword_score c2_resume = 100 := by decide
  have hr : readability_score c2_resume = 50 := by decide
  refine ⟨by decide, by decide, by decide, by decide, hf, by rw [ats_formatting_eq, hf]; decide, ?_⟩
  rw [ats_overall_eq, overall_score_eq, hf, hk, hr]
  norm_num

/-- Claim C2 (amended): for any resume of 25 newline-separated lines
containing case-insensitive standalone-word matches of `Contact`,
`Experience` and `Bachelor`, `calculate_ats_score` returns
formatting 100, keyword 100, readability 50 and overall 85. -/
theorem ats_perfect_resume (r : List Char)
    (hc : wordCI r (chars "Contact") = true)
    (he : wordCI r (chars "Experience") = true)
    (hb : wordCI r (chars "Bachelor") = true)
    (hl : line_count r = 25) :
    (calculate_ats_score r).formatting_score = 100 ∧
    (calculate_ats_score r).keyword_score = 100 ∧
    (calculate_ats_score r).readability_score = 50 ∧
    (calculate_ats_score r).overall_score = 85 := by
  have hcw : hasWordCI r contact_words = true := by
    unfold hasWordCI
    rw [List.any_eq_true]
    exact ⟨chars "Contact", by decide, hc⟩
  have hew : hasWordCI r experience_words = true := by
    unfold hasWordCI
    rw [List.any_eq_true]
    exact ⟨chars "Experience", by decide, he⟩
  have hbw : hasWordCI r education_words = true := by
    unfold hasWordCI
    rw [List.any_eq_true]
    exact ⟨chars "Bachelor", by decide, hb⟩
  have hf : formatting_score r = 100 := by
    unfold formatting_score; rw [hcw]; decide
  have hk : keyword_score r = 100 := by
    unfold keyword_score; rw [hew, hbw]; decide
  have hr : readability_score r = 50 := by
    unfold readability_score; rw [hl]; decide
  refine ⟨by rw [ats_formatting_eq, hf], by rw [ats_keyword_eq, hk],
          by rw [ats_readability_eq, hr], ?_⟩
  rw [ats_overall_eq, overall_score_eq, hf, hk, hr]
  norm_num

/-- Witness for the amended claim C2, at the concrete 25-line resume
`c2_witness_resume`. -/
theorem ats_perfect_resume_witness :
    (wordCI c2_witness_resume (chars "Contact") = true ∧
     wordCI c2_witness_resume (chars "Experience") = true ∧
     wordCI c2_witness_resume (chars "Bachelor") = true ∧
     line_count c2_witness_resume = 25) ∧
    (calculate_ats_score c2_witness_resume).formatting_score = 100 ∧
    (calculate_ats_score c2_witness_resume).keyword_score = 100 ∧
    (calculate_ats_score c2_witness_resume).readability_score = 50 ∧
    (calculate_ats_score c2_witness_resume).overall_score = 85 :=
  ⟨⟨by decide, by decide, by decide, by decide⟩,
   ats_perfect_resume c2_witness_resume (by decide) (by decide) (by decide) (by decide)⟩

/-- Claim C3 counterexample: on the empty resume text, the scores are not
all zero (formatting and keyword are 90, overall is 63), and the
recommendations are the contact/experience/education warnings, none of
which is a "too short"/"add content" message. -/
theorem ats_empty_resume_counterexample :
    (calculate_ats_score []).formatting_score = 90 ∧
    (calculate_ats_score []).formatting_score ≠ 0 ∧
    (calculate_ats_score []).keyword_score = 90 ∧
    (calculate_ats_score []).overall_score = 63 ∧
    (calculate_ats_score []).recommendations =
      [contact_msg, experience_msg, education_msg] := by
  refine ⟨by decide, by decide, by decide, ?_, by decide⟩
  have hf : formatting_score [] = 90 := by decide
  have hk : keyword_score [] = 90 := by decide
  have hr : readability_score [] = 0 := by decide
  rw [ats_overall_eq, overall_score_eq, hf, hk, hr]
  norm_num

/-- Claim C3 (amended): on the empty resume text, `calculate_ats_score`
returns formatting 90, keyword 90, readability 0, overall 63, and the
three warning messages (contact formatting, no experience keywords, no
education keywords) in source order. -/
theorem ats_empty_resume_scores :
    calculate_ats_score [] =
      { overall_score := 63
        formatting_score := 90
        keyword_score := 90
        readability_score := 0
        recommendations := [contact_msg, experience_msg, education_msg] } := by
  have ho : overall_score [] = 63 := by
    have hf : formatting_score [] = 90 := by decide
    have hk : keyword_score [] = 90 := by decide
    have hr : readability_score [] = 0 := by decide
    rw [overall_score_eq, hf, hk, hr]
    norm_num
  have h1 : (calculate_ats_score []).overall_score = 63 := by
    rw [ats_overall_eq, ho]
  have h2 : (calculate_ats_score []).formatting_score = 90 := by decide
  have h3 : (calculate_ats_score []).keyword_score = 90 := by decide
  have h4 : (calculate_ats_score []).readability_score = 0 := by decide
  have h5 : (calculate_ats_score []).recommendations =
      [contact_msg, experience_msg, education_msg] := by decide
  cases hcs : calculate_ats_score [] with
  | mk o f k rd recs =>
    rw [hcs] at h1 h2 h3 h4 h5
    simp_all

/-! ## Claims about the keyword gap finder -/

/-- Claim C6: on the empty resume and the job description
`"Requires Python and SQL"`, `get_missing_keywords` returns the non-empty
list `["Requires Python"]` — exactly the recognizable keywords of that job
text (the pattern `[A-Z][a-z]+` never matches the all-caps `SQL`, and
`Python` is absorbed into the capitalized run `Requires Python`) — capped
at 10 elements, each case-insensitively absent from the empty resume. -/
theorem missing_keywords_empty_resume :
    get_missing_keywords [] c6_job = [chars "Requires Python"] ∧
    get_missing_keywords [] c6_job ≠ [] ∧
    (get_missing_keywords [] c6_job).length ≤ 10 ∧
    ∀ k ∈ get_missing_keywords [] c6_job,
      k ∈ dedupAcc [] (findall c6_job) ∧
      containsSub (lower []) (lower k) = false := by
  refine ⟨by decide, by decide, by decide, by decide⟩

/-- Claim C7: for every resume text and job description,
`get_missing_keywords` returns at most 10 strings, without duplicates,
each a capitalized phrase extracted from the job description (an element
of the `findall` extraction), whose lowercase form is absent as a
substring from the lowercase resume text. -/
theorem missing_keywords_shape (resume job : List Char) :
    (get_missing_keywords resume job).length ≤ 10 ∧
    (get_missing_keywords resume job).Nodup ∧
    ∀ k ∈ get_missing_keywords resume job,
      k ∈ findall job ∧ containsSub (lower resume) (lower k) = false := by
  unfold get_missing_keywords
  refine ⟨List.length_take_le 10 _, ?_, ?_⟩
  · exact ((List.take_sublist 10 _).nodup
      (((dedupAcc_nodup (findall job) []).1).filter _))
  · intro k hk
    have hk' := List.take_subset 10 _ hk
    rw [List.mem_filter] at hk'
    obtain ⟨hmem, hpred⟩ := hk'
    refine ⟨dedupAcc_subset (findall job) [] k hmem, ?_⟩
    simpa using hpred

/-! ## Claim about the weak-verb detector -/

/-- Claim C8: for every resume text, `get_weak_verbs` returns exactly the
pairs of the fixed 8-entry mapping whose weak phrase occurs as a
case-insensitive whole-word match, in the mapping's declaration order
(the result is a sublist of the mapping); in particular
`get_weak_verbs "I worked on the project"` is exactly
`[("worked", "Implemented")]`. -/
theorem weak_verbs_spec (r : List Char) :
    List.Sublist (get_weak_verbs r) weak_verb_map ∧
    (∀ p, p ∈ get_weak_verbs r ↔ p ∈ weak_verb_map ∧ wordCI r p.1 = true) ∧
    get_weak_verbs c8_resume = [(chars "worked", chars "Implemented")] := by
  refine ⟨List.filter_sublist _, ?_, by decide⟩
  intro p
  unfold get_weak_verbs
  rw [List.mem_filter]

/-! ## Claim about the cover-letter generator -/

/-- Claim C9: a template identifier that is not a key of the template table
degrades silently to `formal_de`: the generated letter is identical to the
`formal_de` letter for every name, position and experience dictionary. -/
theorem cover_letter_unknown_template (tid name position : String)
    (e : Experience) (h : TEMPLATES.lookup tid = none) :
    generate_cover_letter tid name position e =
      generate_cover_letter "formal_de" name position e := by
  unfold generate_cover_letter
  rw [h]
  simp

/-- Witness for claim C9: the concrete call with `"unknown_template"`,
`"Anna"`, `"Engineer"` and the empty experience dictionary. -/
theorem cover_letter_unknown_template_witness :
    TEMPLATES.lookup "unknown_template" = none ∧
    generate_cover_letter "unknown_template" "Anna" "Engineer" empty_experience =
      generate_cover_letter "formal_de" "Anna" "Engineer" empty_experience :=
  ⟨by decide,
   cover_letter_unknown_template "unknown_template" "Anna" "Engineer"
     empty_experience (by decide)⟩

/-! ## Claims about the job matcher -/

/-- Claim C4: for every candidate profile and job description, each of the
three sub-scores is never negative, the final result is their sum clamped
to a maximum of 100, and the final result lies in [0, 100]. -/
theorem match_score_in_range (p : CandidateProfile) (job : List Char) :
    0 ≤ skill_component p job ∧
    0 ≤ experience_component p job ∧
    0 ≤ education_component p job ∧
    calculate_job_match_score p job =
      min 100 (skill_component p job + experience_component p job +
               education_component p job) ∧
    0 ≤ calculate_job_match_score p job ∧
    calculate_job_match_score p job ≤ 100 := by
  have hs : 0 ≤ skill_component p job := by
    unfold skill_component
    dsimp only
    split
    · norm_num
    · positivity
  have he : 0 ≤ experience_component p job := by
    unfold experience_component
    split
    · split
      · norm_num
      · exact le_max_left 0 _
    · norm_num
  have hd : 0 ≤ education_component p job := by
    unfold education_component
    split_ifs <;> norm_num
  refine ⟨hs, he, hd, rfl, ?_, min_le_left _ _⟩
  unfold calculate_job_match_score
  exact le_min (by norm_num) (by linarith)

/-- Claim C5: for a job description carrying a numeric year requirement,
the match score is monotone non-decreasing in the candidate's
`experience_years`, all other profile fields held fixed. -/
theorem match_score_monotone_in_experience (job : List Char) (req : Nat)
    (hreq : searchYears job = some req)
    (skills : List (List Char)) (edu : List Char)
    (y1 y2 : Nat) (h : y1 ≤ y2) :
    calculate_job_match_score ⟨skills, y1, edu⟩ job ≤
      calculate_job_match_score ⟨skills, y2, edu⟩ job := by
  have hexp : experience_component ⟨skills, y1, edu⟩ job ≤
      experience_component ⟨skills, y2, edu⟩ job := by
    unfold experience_component
    rw [hreq]
    dsimp only
    by_cases h1 : req ≤ y1
    · rw [if_pos h1, if_pos (le_trans h1 h)]
    · rw [if_neg h1]
      have hpos : 0 < req := by omega
      have hposq : (0:ℚ) < (req : ℚ) := by exact_mod_cast hpos
      by_cases h2 : req ≤ y2
      · rw [if_pos h2]
        refine max_le (by norm_num) ?_
        have hle : (y1:ℚ) / (req:ℚ) ≤ 1 := by
          rw [div_le_one hposq]
          exact_mod_cast le_of_lt (lt_of_not_le h1)
        nlinarith
      · rw [if_neg h2]
        refine max_le_max le_rfl ?_
        refine mul_le_mul_of_nonneg_right ?_ (by norm_num)
        exact (div_le_div_iff_of_pos_right hposq).mpr (by exact_mod_cast h)
  have hsk : skill_component ⟨skills, y1, edu⟩ job =
      skill_component ⟨skills, y2, edu⟩ job := rfl
  have hed : education_component ⟨skills, y1, edu⟩ job =
      education_component ⟨skills, y2, edu⟩ job := rfl
  unfold calculate_job_match_score
  rw [hsk, hed]
  exact min_le_min le_rfl (add_le_add (add_le_add le_rfl hexp) le_rfl)

/-- Witness for claim C5: the job `"Requires 5 years experience"` with
candidates of 2 and 3 years of experience. -/
theorem match_score_monotone_witness :
    searchYears c5_job = some 5 ∧
    calculate_job_match_score ⟨[], 2, chars "Unknown"⟩ c5_job ≤
      calculate_job_match_score ⟨[], 3, chars "Unknown"⟩ c5_job :=
  ⟨by decide,
   match_score_monotone_in_experience c5_job 5 (by decide) [] (chars "Unknown")
     2 3 (by decide)⟩

/-- Claim C10: in `calculate_job_match_score`, candidate skills are
lowercased while job-skill matches keep the capitalization of the job
description, so a candidate with skills `["Python"]` possesses (up to
case) every recognized skill of the job `"Requires Python"`, yet the skill
sub-score is 0. -/
theorem skill_case_mismatch_zero :
    job_skill_matches c10_job = [chars "Python"] ∧
    (∀ k ∈ job_skill_matches c10_job,
      lower k ∈ c10_profile.skills.map lower) ∧
    skill_component c10_profile c10_job = 0 := by
  refine ⟨by decide, by decide, ?_⟩
  have h1 : dedupAcc [] (job_skill_matches c10_job) = [chars "Python"] := by decide
  have h2 : ([chars "Python"].filter
      fun k => k ∈ dedupAcc [] (c10_profile.skills.map lower)) = [] := by decide
  unfold skill_component
  dsimp only
  rw [h1, h2]
  simp

end CareerAssist
